import Mathlib

/-!
# MediCoordinator — shallow embedding and verification

A shallow embedding of the MediCoordinator multi-agent healthcare demo
(`src/agents/orchestrator.py`, `src/agents/supply_chain_agent.py`,
`src/agents/clinical_agent.py`, `src/agents/discharge_agent.py`,
`src/analytics/metrics_tracker.py`, `src/main.py`).

The external text-completion endpoint is modelled as an oracle
`Service : String → List Message → Nat → Except String String`
taking the model identifier, the ordered message list and the
`max_tokens` budget, and returning either the reply text (`Except.ok`)
or the stringified exception (`Except.error`).  Python `float`
quantities (response times, savings) are modelled as `ℚ`; wall-clock
readings and timestamps are passed in as explicit parameters.
-/

/-- One chat message: a `{role, content}` pair as sent to the completion API. -/
structure Message where
  role : String
  content : String
deriving DecidableEq

/-- The completion-service boundary: `(model, messages, max_tokens) → reply or error`. -/
def Service : Type := String → List Message → Nat → Except String String

/-- Python's `pat in s` substring test (`str.__contains__`). -/
def strContains (s pat : String) : Bool := decide (pat.data <:+: s.data)

/-- Python's `str.lower()`: lowercase every character. -/
def strLower (s : String) : String := ⟨s.data.map Char.toLower⟩

/-- Result dict of `OrchestratorAgent.analyze_request`.  The success branch
returns keys `agents_needed`, `priority`, `analysis`, `original_request`;
the error branch returns `error`, `agents_needed`, `priority`.  Keys absent
from a branch are modelled as `none`. -/
structure Routing where
  agents_needed : List String
  priority : String
  analysis : Option String
  original_request : Option String
  error : Option String
deriving DecidableEq

/-- The system+user message list built by `OrchestratorAgent.analyze_request`
(lines 37–57 of `orchestrator.py`). -/
def orchestrator_messages (request : String) : List Message :=
  [{ role := "system",
     content := "You are a hospital coordination system orchestrator.\nAnalyze requests and determine which agents should be activated:\n\nAvailable agents:\n1. supply_chain_agent - Handles inventory, supplies, equipment\n2. clinical_agent - Handles patient safety, drug interactions, protocols\n3. discharge_agent - Handles patient discharge planning\n\nRespond in this exact format:\nAGENTS_NEEDED: [comma-separated list]\nPRIORITY: [HIGH/MEDIUM/LOW]\nREASONING: [brief explanation]" },
   { role := "user", content := "Request: " ++ request }]

/-- The routing parse of `analyze_request` (lines 69–75): sequential appends
guarded by case-insensitive substring tests on the reply. -/
def parseAgentsNeeded (analysis : String) : List String :=
  (if strContains (strLower analysis) "supply_chain" then ["supply_chain_agent"] else []) ++
  (if strContains (strLower analysis) "clinical" then ["clinical_agent"] else []) ++
  (if strContains (strLower analysis) "discharge" then ["discharge_agent"] else [])

/-- `OrchestratorAgent.analyze_request`: one completion call with
`model="sonar-pro"`, `max_tokens=500`; on success, substring-parse the
reply; on exception, return the error dict. -/
def analyze_request (request : String) (client : Service) : Routing :=
  match client "sonar-pro" (orchestrator_messages request) 500 with
  | .ok analysis =>
      { agents_needed := parseAgentsNeeded analysis
        priority := if strContains analysis "HIGH" then "HIGH" else "MEDIUM"
        analysis := some analysis
        original_request := some request
        error := none }
  | .error e =>
      { agents_needed := []
        priority := "UNKNOWN"
        analysis := none
        original_request := none
        error := some e }

/-- `OrchestratorAgent.coordinate`: analyzes and returns the routing
unchanged (console printing omitted). -/
def coordinate (request : String) (client : Service) : Routing :=
  analyze_request request client

/-- A patient record from `ClinicalAgent`'s mock patient database. -/
structure PatientRecord where
  name : String
  age : Nat
  allergies : List String
  current_medications : List String
  conditions : List String
deriving DecidableEq

/-- `ClinicalAgent.self.patients`: the mock patient database (lines 27–35 of
`clinical_agent.py`). -/
def clinicalPatients : List (String × PatientRecord) :=
  [("patient_123",
    { name := "Jane Doe"
      age := 32
      allergies := []
      current_medications := []
      conditions := ["pregnancy"] })]

/-- `self.patients.get(patient_id, {})`: association-list lookup. -/
def lookupPatient (patients : List (String × PatientRecord)) (patient_id : String) :
    Option PatientRecord :=
  (patients.find? (fun p => p.1 == patient_id)).map Prod.snd

/-- The user-message f-string of `ClinicalAgent.check_safety` (lines 69–75).
When the patient id is missing, every `.get` default applies
(`'Unknown'` / `['None']`). -/
def clinicalUserContent (patients : List (String × PatientRecord))
    (patient_id proposed_treatment : String) : String :=
  match lookupPatient patients patient_id with
  | some patient =>
      "Patient: " ++ patient.name ++
      "\nAge: " ++ toString patient.age ++
      "\nAllergies: " ++ String.intercalate ", " patient.allergies ++
      "\nCurrent medications: " ++ String.intercalate ", " patient.current_medications ++
      "\nConditions: " ++ String.intercalate ", " patient.conditions ++
      "\n\nProposed treatment: " ++ proposed_treatment
  | none =>
      "Patient: Unknown" ++
      "\nAge: Unknown" ++
      "\nAllergies: None" ++
      "\nCurrent medications: None" ++
      "\nConditions: None" ++
      "\n\nProposed treatment: " ++ proposed_treatment

/-- The system+user message list built by `ClinicalAgent.check_safety`
(lines 51–77). -/
def clinical_messages (patients : List (String × PatientRecord))
    (patient_id proposed_treatment : String) : List Message :=
  [{ role := "system",
     content := "You are a clinical safety officer.\nAnalyze proposed treatments for safety issues:\n1. Drug interactions\n2. Contraindications\n3. Allergy risks\n4. Protocol compliance\n\nRespond in format:\nSAFETY_STATUS: [SAFE/CAUTION/UNSAFE]\nINTERACTIONS: [any drug interactions]\nCONTRAINDICATIONS: [any issues]\nRECOMMENDATIONS: [clinical guidance]" },
   { role := "user", content := clinicalUserContent patients patient_id proposed_treatment }]

/-- Result dict of `ClinicalAgent.check_safety`: either
`{status:"analyzed", patient_id, treatment, analysis}` or
`{error, status:"error"}`. -/
inductive ClinicalResult where
  | analyzed (patient_id : String) (treatment : String) (analysis : String)
  | failure (error : String)
deriving DecidableEq

/-- Whether the result dict contains an `"error"` key. -/
def ClinicalResult.hasError : ClinicalResult → Bool
  | .failure _ => true
  | _ => false

/-- `ClinicalAgent.check_safety`: builds the prompt, makes one completion
call (`max_tokens=400`), wraps the reply or the stringified exception.
The method never assigns to `self`, so the returned agent state (the
patient database) is the input state. -/
def check_safety (patients : List (String × PatientRecord))
    (patient_id proposed_treatment : String) (client : Service) :
    ClinicalResult × List (String × PatientRecord) :=
  match client "sonar-pro" (clinical_messages patients patient_id proposed_treatment) 400 with
  | .ok analysis => (.analyzed patient_id proposed_treatment analysis, patients)
  | .error e => (.failure e, patients)

/-- `SupplyChainAgent.self.inventory`: the mock inventory database
(lines 27–34 of `supply_chain_agent.py`). -/
def supplyInventory : List (String × Nat) :=
  [("blood_o_positive", 50),
   ("blood_ab_negative", 12),
   ("surgical_gloves", 1000),
   ("anesthesia_propofol", 100),
   ("sterile_instruments", 50),
   ("iv_fluids", 200)]

/-- `SupplyChainAgent._format_inventory`: one `- item: qty units` line per
entry, joined with newlines. -/
def format_inventory (inventory : List (String × Nat)) : String :=
  String.intercalate "\n"
    (inventory.map (fun p => "- " ++ p.1 ++ ": " ++ toString p.2 ++ " units"))

/-- The user-message f-string of `SupplyChainAgent.check_supplies`
(lines 63–69); the blank line inside the triple-quoted literal carries the
16-space indentation of the source. -/
def supplyUserContent (required_items : List String) (inventory : List (String × Nat)) : String :=
  "Required items: " ++ String.intercalate ", " required_items ++
  "\n                \nCurrent inventory:\n" ++ format_inventory inventory

/-- The system+user message list built by `SupplyChainAgent.check_supplies`
(lines 47–70).  Note the request text is not an input: the prompt depends
only on the required-items list and the inventory. -/
def supply_messages (required_items : List String) (inventory : List (String × Nat)) :
    List Message :=
  [{ role := "system",
     content := "You are a hospital supply chain analyst.\nGiven a list of required items and current inventory, determine:\n1. If supplies are sufficient\n2. What's missing or low\n3. Recommendations for ordering\n\nRespond in format:\nSTATUS: [SUFFICIENT/INSUFFICIENT/CRITICAL]\nAVAILABLE: [list items with OK stock]\nLOW_STOCK: [list items running low]\nMISSING: [list unavailable items]\nRECOMMENDATIONS: [brief action items]" },
   { role := "user", content := supplyUserContent required_items inventory }]

/-- Result dict of `SupplyChainAgent.check_supplies`: either
`{status:"analyzed", required_items, current_inventory, analysis}` or
`{error, status:"error"}`. -/
inductive SupplyResult where
  | analyzed (required_items : List String) (current_inventory : List (String × Nat))
      (analysis : String)
  | failure (error : String)
deriving DecidableEq

/-- Whether the result dict contains an `"error"` key. -/
def SupplyResult.hasError : SupplyResult → Bool
  | .failure _ => true
  | _ => false

/-- `SupplyChainAgent.check_supplies`: builds the prompt, makes one
completion call (`max_tokens=400`), wraps the reply or the stringified
exception.  The method never assigns to `self`, so the returned agent
state (the inventory) is the input state. -/
def check_supplies (inventory : List (String × Nat)) (required_items : List String)
    (client : Service) : SupplyResult × List (String × Nat) :=
  match client "sonar-pro" (supply_messages required_items inventory) 400 with
  | .ok analysis => (.analyzed required_items inventory analysis, inventory)
  | .error e => (.failure e, inventory)

/-- The user-message f-string of `DischargeAgent.create_discharge_plan`
(line 48). -/
def dischargeUserContent (patient_id condition : String) : String :=
  "Patient: " ++ patient_id ++ "\nCondition: " ++ condition ++ "\nCreate discharge plan."

/-- The system+user message list built by `DischargeAgent.create_discharge_plan`
(lines 29–50). -/
def discharge_messages (patient_id condition : String) : List Message :=
  [{ role := "system",
     content := "You are a discharge planning coordinator.\nCreate a comprehensive discharge plan including:\n1. Home care arrangements\n2. Medication instructions\n3. Follow-up appointments\n4. Warning signs to watch for\n\nRespond in format:\nHOME_CARE: [arrangements needed]\nMEDICATIONS: [instructions]\nFOLLOW_UP: [appointment schedule]\nWARNING_SIGNS: [what to watch for]\nTIMELINE: [discharge readiness]" },
   { role := "user", content := dischargeUserContent patient_id condition }]

/-- Result dict of `DischargeAgent.create_discharge_plan`: either
`{status:"plan_created", patient_id, plan}` or `{error, status:"error"}`. -/
inductive DischargeResult where
  | plan_created (patient_id : String) (plan : String)
  | failure (error : String)
deriving DecidableEq

/-- Whether the result dict contains an `"error"` key. -/
def DischargeResult.hasError : DischargeResult → Bool
  | .failure _ => true
  | _ => false

/-- `DischargeAgent.create_discharge_plan`: builds the prompt, makes one
completion call (`max_tokens=500`), wraps the reply or the stringified
exception. -/
def create_discharge_plan (patient_id condition : String) (client : Service) :
    DischargeResult :=
  match client "sonar-pro" (discharge_messages patient_id condition) 500 with
  | .ok plan => .plan_created patient_id plan
  | .error e => .failure e

/-- `MetricsTracker.MANUAL_SURGERY_PREP_TIME` (minutes). -/
def MANUAL_SURGERY_PREP_TIME : ℚ := 35

/-- `MetricsTracker.MANUAL_SAFETY_CHECK_TIME` (minutes). -/
def MANUAL_SAFETY_CHECK_TIME : ℚ := 12

/-- `MetricsTracker.MANUAL_DISCHARGE_PLAN_TIME` (minutes). -/
def MANUAL_DISCHARGE_PLAN_TIME : ℚ := 120

/-- `MetricsTracker.CLINICAL_STAFF_COST_PER_HOUR` (USD). -/
def CLINICAL_STAFF_COST_PER_HOUR : ℚ := 85

/-- `MetricsTracker.ADMIN_STAFF_COST_PER_HOUR` (USD). -/
def ADMIN_STAFF_COST_PER_HOUR : ℚ := 45

/-- `MetricsTracker._calculate_time_saved`: sequential `+=` of the fixed
per-responder minutes, one membership test per responder id. -/
def calculate_time_saved (agents_used : List String) : ℚ :=
  (if "supply_chain_agent" ∈ agents_used then MANUAL_SURGERY_PREP_TIME else 0) +
  (if "clinical_agent" ∈ agents_used then MANUAL_SAFETY_CHECK_TIME else 0) +
  (if "discharge_agent" ∈ agents_used then MANUAL_DISCHARGE_PLAN_TIME else 0)

/-- `MetricsTracker._calculate_cost_saved`: time saved in hours times the
blended clinical/admin hourly rate. -/
def calculate_cost_saved (agents_used : List String) : ℚ :=
  (calculate_time_saved agents_used / 60) *
    ((CLINICAL_STAFF_COST_PER_HOUR + ADMIN_STAFF_COST_PER_HOUR) / 2)

/-- One entry of `MetricsTracker.self.requests` as built by `log_request`. -/
structure MetricsRecord where
  timestamp : String
  request_type : String
  agents_used : List String
  response_time : ℚ
  status : String
  time_saved : ℚ
  cost_saved : ℚ
deriving DecidableEq

/-- `MetricsTracker.log_request`: builds the record dict and appends it to
`self.requests`; returns the record (the Python method's return value) and
the new ledger (the mutated `self.requests`).  The timestamp
(`datetime.now().isoformat()`) is passed in as a parameter. -/
def log_request (requests : List MetricsRecord) (request_type : String)
    (agents_used : List String) (response_time : ℚ) (status : String)
    (timestamp : String) : MetricsRecord × List MetricsRecord :=
  let request_data : MetricsRecord :=
    { timestamp := timestamp
      request_type := request_type
      agents_used := agents_used
      response_time := response_time
      status := status
      time_saved := calculate_time_saved agents_used
      cost_saved := calculate_cost_saved agents_used }
  (request_data, requests ++ [request_data])

/-- Python's `round` on a rational: round-half-to-even to an integer. -/
def pythonRound (q : ℚ) : ℤ :=
  if q - ⌊q⌋ < 1 / 2 then ⌊q⌋
  else if q - ⌊q⌋ > 1 / 2 then ⌊q⌋ + 1
  else if ⌊q⌋ % 2 = 0 then ⌊q⌋ else ⌊q⌋ + 1

/-- Python's `round(q, 2)`: round-half-to-even at two decimal places. -/
def round2 (q : ℚ) : ℚ := (pythonRound (q * 100) : ℚ) / 100

/-- Result dict of `MetricsTracker.get_summary_stats`.  The empty-ledger
branch omits the `daily_cost_saved` and `annual_projection` keys, modelled
as `none`. -/
structure SummaryStats where
  total_requests : Nat
  avg_response_time : ℚ
  total_time_saved_hours : ℚ
  total_cost_saved : ℚ
  daily_cost_saved : Option ℚ
  annual_projection : Option ℚ
  uptime_hours : ℚ
deriving DecidableEq

/-- `MetricsTracker.get_summary_stats`: all-zero dict on an empty ledger;
otherwise sums, a rounded mean, and uptime-based extrapolations.  The
uptime (`(time.time() - self.start_time) / 3600`, in hours) is passed in
as a parameter. -/
def get_summary_stats (requests : List MetricsRecord) (uptime : ℚ) : SummaryStats :=
  if requests = [] then
    { total_requests := 0
      avg_response_time := 0
      total_time_saved_hours := 0
      total_cost_saved := 0
      daily_cost_saved := none
      annual_projection := none
      uptime_hours := 0 }
  else
    let total_time_saved : ℚ := (requests.map (fun r => r.time_saved)).sum
    let total_cost_saved : ℚ := (requests.map (fun r => r.cost_saved)).sum
    let avg_response_time : ℚ :=
      (requests.map (fun r => r.response_time)).sum / (requests.length : ℚ)
    { total_requests := requests.length
      avg_response_time := round2 avg_response_time
      total_time_saved_hours := round2 (total_time_saved / 60)
      total_cost_saved := round2 total_cost_saved
      daily_cost_saved :=
        some (round2 (if uptime > 0 then total_cost_saved * (24 / uptime) else 0))
      annual_projection :=
        some (round2 (if uptime > 0 then total_cost_saved * (8760 / uptime) else 0))
      uptime_hours := round2 uptime }

/-- `MetricsTracker.get_recent_requests`: the Python slice
`self.requests[-limit:]` (for `limit = 0` the slice is the whole list). -/
def get_recent_requests (requests : List MetricsRecord) (limit : Nat) :
    List MetricsRecord :=
  if limit = 0 then requests else requests.drop (requests.length - limit)

/-- Return dict of `MediCoordinator.process_request` in the successful
(classification did not error) case: `{routing, results, status, metrics}`.
The `results` dict holds one entry per invoked responder, modelled as three
`Option` fields. -/
structure ProcessResult where
  routing : Routing
  supply_result : Option SupplyResult
  clinical_result : Option ClinicalResult
  discharge_result : Option DischargeResult
  status : String
  metrics : SummaryStats
deriving DecidableEq

/-- `MediCoordinator.process_request` (`main.py` lines 34–131): classify,
short-circuit on classifier error (Python returns `None` and the ledger is
untouched), otherwise invoke each routed responder sequentially
(supply → clinical → discharge), derive the outcome status, append one
metrics record, and return the composite result together with the new
ledger.  Each agent holds its own API client, so four service oracles are
passed; the wall-clock elapsed time, the timestamp and the tracker uptime
are explicit parameters. -/
def process_request (requests : List MetricsRecord) (request patient_id : String)
    (orchClient supplyClient clinicalClient dischargeClient : Service)
    (timestamp : String) (response_time uptime : ℚ) :
    Option ProcessResult × List MetricsRecord :=
  let routing := coordinate request orchClient
  if routing.error ≠ none then
    (none, requests)
  else
    let agents_needed := routing.agents_needed
    let supply_result : Option SupplyResult :=
      if "supply_chain_agent" ∈ agents_needed then
        some (check_supplies supplyInventory
          ["blood_o_positive", "anesthesia_propofol", "sterile_instruments"] supplyClient).1
      else none
    let clinical_result : Option ClinicalResult :=
      if "clinical_agent" ∈ agents_needed then
        some (check_safety clinicalPatients patient_id request clinicalClient).1
      else none
    let discharge_result : Option DischargeResult :=
      if "discharge_agent" ∈ agents_needed then
        some (create_discharge_plan patient_id request dischargeClient)
      else none
    let all_safe :=
      supply_result.all (fun r => !r.hasError) &&
      clinical_result.all (fun r => !r.hasError) &&
      discharge_result.all (fun r => !r.hasError)
    let status := if all_safe then "approved" else "review_required"
    let logged := log_request requests (request.take 50) agents_needed
      response_time status timestamp
    let stats := get_summary_stats logged.2 uptime
    (some { routing := routing
            supply_result := supply_result
            clinical_result := clinical_result
            discharge_result := discharge_result
            status := status
            metrics := stats },
     logged.2)

/-- `strContains` reflects list-infix containment of the pattern's characters. -/
theorem strContains_iff (s pat : String) :
    strContains s pat = true ↔ pat.data <:+: s.data := by
  simp [strContains]

/-- Claim C1: a responder id appears in `agents_needed` iff its literal
keyword substring ("supply_chain" / "clinical" / "discharge") occurs
case-insensitively anywhere in the classifier reply; in particular a reply
that merely mentions a keyword while denying the need still selects that
responder. -/
theorem C1_keyword_routing (request reply : String) (client : Service)
    (h : client "sonar-pro" (orchestrator_messages request) 500 = Except.ok reply) :
    ("supply_chain_agent" ∈ (analyze_request request client).agents_needed ↔
      "supply_chain".data <:+: (strLower reply).data) ∧
    ("clinical_agent" ∈ (analyze_request request client).agents_needed ↔
      "clinical".data <:+: (strLower reply).data) ∧
    ("discharge_agent" ∈ (analyze_request request client).agents_needed ↔
      "discharge".data <:+: (strLower reply).data) ∧
    "clinical_agent" ∈
      (analyze_request request
        (fun _ _ _ => Except.ok "The clinical agent is not required")).agents_needed := by
  refine ⟨?_, ?_, ?_, ?_⟩
  · simp only [analyze_request, h, parseAgentsNeeded, List.mem_append]
    split_ifs with h1 h2 h3 <;> simp_all [strContains_iff]
  · simp only [analyze_request, h, parseAgentsNeeded, List.mem_append]
    split_ifs with h1 h2 h3 <;> simp_all [strContains_iff]
  · simp only [analyze_request, h, parseAgentsNeeded, List.mem_append]
    split_ifs with h1 h2 h3 <;> simp_all [strContains_iff]
  · show "clinical_agent" ∈ parseAgentsNeeded "The clinical agent is not required"
    decide

/-- Witness for C1: the keyword iff evaluated at a concrete stubbed reply. -/
theorem C1_keyword_routing_witness :
    ("supply_chain_agent" ∈
        (analyze_request "req" (fun _ _ _ => Except.ok "needs clinical")).agents_needed ↔
      "supply_chain".data <:+: (strLower "needs clinical").data) ∧
    ("clinical_agent" ∈
        (analyze_request "req" (fun _ _ _ => Except.ok "needs clinical")).agents_needed ↔
      "clinical".data <:+: (strLower "needs clinical").data) ∧
    ("discharge_agent" ∈
        (analyze_request "req" (fun _ _ _ => Except.ok "needs clinical")).agents_needed ↔
      "discharge".data <:+: (strLower "needs clinical").data) ∧
    "clinical_agent" ∈
      (analyze_request "req"
        (fun _ _ _ => Except.ok "The clinical agent is not required")).agents_needed :=
  C1_keyword_routing "req" "needs clinical" (fun _ _ _ => Except.ok "needs clinical") rfl

/-- Claim C10: whatever the service returns, `agents_needed` is an in-order
sublist of the canonical responder-id list, has no duplicates, and has at
most three elements. -/
theorem C10_agents_needed_canonical (request : String) (client : Service) :
    (analyze_request request client).agents_needed.Sublist
      ["supply_chain_agent", "clinical_agent", "discharge_agent"] ∧
    (analyze_request request client).agents_needed.Nodup ∧
    (analyze_request request client).agents_needed.length ≤ 3 := by
  rcases hc : client "sonar-pro" (orchestrator_messages request) 500 with e | a
  · simp only [analyze_request, hc]
    exact ⟨List.nil_sublist _, List.nodup_nil, by decide⟩
  · simp only [analyze_request, hc]
    unfold parseAgentsNeeded
    split_ifs <;> exact ⟨by decide, by decide, by decide⟩

/-- Claim C3: on the success path, priority is `"HIGH"` iff the raw reply
contains the case-sensitive substring `"HIGH"`, and `"MEDIUM"` otherwise;
priority `"UNKNOWN"` is produced exactly by the service-error branch. -/
theorem C3_priority_parse (request reply : String) (client other : Service)
    (h : client "sonar-pro" (orchestrator_messages request) 500 = Except.ok reply) :
    ((analyze_request request client).priority = "HIGH" ↔ "HIGH".data <:+: reply.data) ∧
    (¬ "HIGH".data <:+: reply.data → (analyze_request request client).priority = "MEDIUM") ∧
    ((analyze_request request other).priority = "UNKNOWN" ↔
      ∃ e, other "sonar-pro" (orchestrator_messages request) 500 = Except.error e) := by
  refine ⟨?_, ?_, ?_⟩
  · simp only [analyze_request, h]
    split_ifs with hH <;> simp_all [strContains_iff]
  · intro hno
    simp only [analyze_request, h]
    split_ifs with hH
    · exact absurd ((strContains_iff _ _).mp hH) hno
    · rfl
  · rcases ho : other "sonar-pro" (orchestrator_messages request) 500 with e | a <;>
      simp only [analyze_request, ho]
    · exact iff_of_true trivial ⟨e, rfl⟩
    · simp only [iff_false, reduceCtorEq, exists_false]
      split_ifs <;> decide

/-- Witness for C3: the priority rules evaluated at a concrete stubbed
reply and a concrete erroring service. -/
theorem C3_priority_parse_witness :
    ((analyze_request "req" (fun _ _ _ => Except.ok "priority: HIGH")).priority = "HIGH" ↔
      "HIGH".data <:+: "priority: HIGH".data) ∧
    (¬ "HIGH".data <:+: "priority: HIGH".data →
      (analyze_request "req" (fun _ _ _ => Except.ok "priority: HIGH")).priority = "MEDIUM") ∧
    ((analyze_request "req" (fun _ _ _ => Except.error "auth failure")).priority = "UNKNOWN" ↔
      ∃ e, (fun _ _ _ => Except.error "auth failure" : Service) "sonar-pro"
        (orchestrator_messages "req") 500 = Except.error e) :=
  C3_priority_parse "req" "priority: HIGH" (fun _ _ _ => Except.ok "priority: HIGH")
    (fun _ _ _ => Except.error "auth failure") rfl

/-- Claim C2: when the classifier's service call fails, the routing carries
empty `agents_needed`, priority `"UNKNOWN"` and the error string, and the
coordinator returns immediately (`None` in Python): no responder result is
produced and the metrics ledger is unchanged. -/
theorem C2_classifier_error_short_circuit (requests : List MetricsRecord)
    (request patient_id e timestamp : String)
    (orchClient supplyClient clinicalClient dischargeClient : Service)
    (response_time uptime : ℚ)
    (h : orchClient "sonar-pro" (orchestrator_messages request) 500 = Except.error e) :
    (analyze_request request orchClient).agents_needed = [] ∧
    (analyze_request request orchClient).priority = "UNKNOWN" ∧
    (analyze_request request orchClient).error = some e ∧
    process_request requests request patient_id orchClient supplyClient clinicalClient
      dischargeClient timestamp response_time uptime = (none, requests) := by
  refine ⟨?_, ?_, ?_, ?_⟩ <;>
    simp [analyze_request, process_request, coordinate, h]

/-- Witness for C2: the short-circuit at a concrete erroring classifier. -/
theorem C2_classifier_error_short_circuit_witness :
    (analyze_request "req" (fun _ _ _ => Except.error "boom")).agents_needed = [] ∧
    (analyze_request "req" (fun _ _ _ => Except.error "boom")).priority = "UNKNOWN" ∧
    (analyze_request "req" (fun _ _ _ => Except.error "boom")).error = some "boom" ∧
    process_request [] "req" "patient_123" (fun _ _ _ => Except.error "boom")
      (fun _ _ _ => Except.ok "ok") (fun _ _ _ => Except.ok "ok")
      (fun _ _ _ => Except.ok "ok") "t0" 1 1 = (none, []) :=
  C2_classifier_error_short_circuit [] "req" "patient_123" "boom" "t0"
    (fun _ _ _ => Except.error "boom") (fun _ _ _ => Except.ok "ok")
    (fun _ _ _ => Except.ok "ok") (fun _ _ _ => Except.ok "ok") 1 1 rfl

/-- The outcome-status string is `"approved"` exactly when the aggregate
safety boolean holds. -/
theorem status_eq_approved_iff (b : Bool) :
    (if b = true then "approved" else "review_required") = "approved" ↔ b = true := by
  cases b <;> decide

/-- The outcome-status string is `"review_required"` exactly when the
aggregate safety boolean fails. -/
theorem status_eq_review_required_iff (b : Bool) :
    (if b = true then "approved" else "review_required") = "review_required" ↔
      ¬ b = true := by
  cases b <;> decide

/-- `Option.all` as a universally quantified membership statement. -/
theorem option_all_eq_true_iff {α : Type} (p : α → Bool) (o : Option α) :
    o.all p = true ↔ ∀ a ∈ o, p a = true := by
  cases o <;> simp [Option.all]

/-- Claim C5: once the responder stage is reached, the status is
`"approved"` iff every invoked responder returned a success result, and
`"review_required"` otherwise; responders that were not invoked do not
participate, so with zero invocations the status is `"approved"`. -/
theorem C5_outcome_status (requests : List MetricsRecord)
    (request patient_id reply timestamp : String)
    (orchClient supplyClient clinicalClient dischargeClient : Service)
    (response_time uptime : ℚ)
    (h : orchClient "sonar-pro" (orchestrator_messages request) 500 = Except.ok reply) :
    ∃ res : ProcessResult,
      (process_request requests request patient_id orchClient supplyClient clinicalClient
        dischargeClient timestamp response_time uptime).1 = some res ∧
      (res.status = "approved" ↔
        (∀ r ∈ res.supply_result, r.hasError = false) ∧
        (∀ r ∈ res.clinical_result, r.hasError = false) ∧
        (∀ r ∈ res.discharge_result, r.hasError = false)) ∧
      (res.status = "review_required" ↔
        ¬ ((∀ r ∈ res.supply_result, r.hasError = false) ∧
           (∀ r ∈ res.clinical_result, r.hasError = false) ∧
           (∀ r ∈ res.discharge_result, r.hasError = false))) ∧
      (res.supply_result = none → res.clinical_result = none →
        res.discharge_result = none → res.status = "approved") := by
  simp only [process_request, coordinate, analyze_request, h]
  refine ⟨_, rfl, ?_, ?_, ?_⟩
  · dsimp only
    rw [status_eq_approved_iff, Bool.and_eq_true, Bool.and_eq_true,
      option_all_eq_true_iff, option_all_eq_true_iff, option_all_eq_true_iff]
    simp [Bool.not_eq_true', and_assoc]
  · dsimp only
    rw [status_eq_review_required_iff, Bool.and_eq_true, Bool.and_eq_true,
      option_all_eq_true_iff, option_all_eq_true_iff, option_all_eq_true_iff]
    simp [Bool.not_eq_true', and_assoc]
  · dsimp only
    intro hs hc hd
    rw [hs, hc, hd]
    rfl

/-- Witness for C5: the outcome-status rule at a concrete stubbed run. -/
theorem C5_outcome_status_witness :
    ∃ res : ProcessResult,
      (process_request [] "check supplies" "patient_123"
        (fun _ _ _ => Except.ok "supply_chain and clinical")
        (fun _ _ _ => Except.ok "STATUS: SUFFICIENT")
        (fun _ _ _ => Except.ok "SAFETY_STATUS: SAFE")
        (fun _ _ _ => Except.ok "HOME_CARE: none") "t0" 1 1).1 = some res ∧
      (res.status = "approved" ↔
        (∀ r ∈ res.supply_result, r.hasError = false) ∧
        (∀ r ∈ res.clinical_result, r.hasError = false) ∧
        (∀ r ∈ res.discharge_result, r.hasError = false)) ∧
      (res.status = "review_required" ↔
        ¬ ((∀ r ∈ res.supply_result, r.hasError = false) ∧
           (∀ r ∈ res.clinical_result, r.hasError = false) ∧
           (∀ r ∈ res.discharge_result, r.hasError = false))) ∧
      (res.supply_result = none → res.clinical_result = none →
        res.discharge_result = none → res.status = "approved") :=
  C5_outcome_status [] "check supplies" "patient_123" "supply_chain and clinical" "t0"
    (fun _ _ _ => Except.ok "supply_chain and clinical")
    (fun _ _ _ => Except.ok "STATUS: SUFFICIENT")
    (fun _ _ _ => Except.ok "SAFETY_STATUS: SAFE")
    (fun _ _ _ => Except.ok "HOME_CARE: none") 1 1 rfl

/-- Evaluation: the time saved for `{supply, discharge}` is 155 minutes. -/
theorem time_saved_supply_discharge :
    calculate_time_saved ["supply_chain_agent", "discharge_agent"] = 155 := by
  simp [calculate_time_saved, MANUAL_SURGERY_PREP_TIME, MANUAL_SAFETY_CHECK_TIME,
    MANUAL_DISCHARGE_PLAN_TIME]
  norm_num

/-- Evaluation: the cost saved for `{supply, discharge}` is `2015/12`. -/
theorem cost_saved_supply_discharge :
    calculate_cost_saved ["supply_chain_agent", "discharge_agent"] = 2015 / 12 := by
  rw [calculate_cost_saved, time_saved_supply_discharge,
    CLINICAL_STAFF_COST_PER_HOUR, ADMIN_STAFF_COST_PER_HOUR]
  norm_num

/-- Counterexample to C4 as stated: for `agents_used = {supply, discharge}`
the code computes `time_saved = 155` minutes and
`cost_saved = (155/60)·((85+45)/2) = 2015/12 = 167.9166…`, which does not
lie in `[167.08, 167.09)`, so the claim's asserted decimal `167.08…` is not
the program's output. -/
theorem C4_counterexample :
    calculate_time_saved ["supply_chain_agent", "discharge_agent"] = 155 ∧
    calculate_cost_saved ["supply_chain_agent", "discharge_agent"] = 2015 / 12 ∧
    ¬ ((16708 : ℚ) / 100 ≤ calculate_cost_saved ["supply_chain_agent", "discharge_agent"] ∧
       calculate_cost_saved ["supply_chain_agent", "discharge_agent"] < (16709 : ℚ) / 100) := by
  refine ⟨time_saved_supply_discharge, cost_saved_supply_discharge, ?_⟩
  rintro ⟨h1, h2⟩
  rw [cost_saved_supply_discharge] at h2
  norm_num at h2

/-- Claim C4 (amended): `cost_saved` always equals
`time_saved/60 · ((85+45)/2)`; `{supply, discharge}` yields `35+120 = 155`
minutes and cost `(155/60)·((85+45)/2) = 2015/12 = 167.91…` (not
`167.08…`), and zero responders yield 0 minutes and 0 cost. -/
theorem C4_metrics_arithmetic (agents_used : List String) :
    calculate_cost_saved agents_used =
      (calculate_time_saved agents_used / 60) *
        ((CLINICAL_STAFF_COST_PER_HOUR + ADMIN_STAFF_COST_PER_HOUR) / 2) ∧
    calculate_time_saved ["supply_chain_agent", "discharge_agent"] = 35 + 120 ∧
    calculate_cost_saved ["supply_chain_agent", "discharge_agent"] =
      (155 / 60) * ((85 + 45) / 2) ∧
    (16791 : ℚ) / 100 ≤ calculate_cost_saved ["supply_chain_agent", "discharge_agent"] ∧
    calculate_cost_saved ["supply_chain_agent", "discharge_agent"] < (16792 : ℚ) / 100 ∧
    calculate_time_saved [] = 0 ∧
    calculate_cost_saved [] = 0 := by
  refine ⟨rfl, ?_, ?_, ?_, ?_, ?_, ?_⟩
  · rw [time_saved_supply_discharge]; norm_num
  · rw [cost_saved_supply_discharge]; norm_num
  · rw [cost_saved_supply_discharge]; norm_num
  · rw [cost_saved_supply_discharge]; norm_num
  · simp [calculate_time_saved]
  · simp [calculate_cost_saved, calculate_time_saved]

/-- A concrete one-record ledger entry produced by `log_request`: a clinical
request answered in a millisecond. -/
def sampleRecord : MetricsRecord :=
  (log_request [] "demo request" ["clinical_agent"] (1 / 1000) "approved"
    "2026-01-01T00:00:00").1

/-- Counterexample to C6 as stated: on the one-record ledger
`[sampleRecord]` the summary reports `avg_response_time = 0` while the
arithmetic mean of the wall-clock seconds is `1/1000`, and it reports
`total_time_saved_hours = 1/5` while the sum of the records' `time_saved`
values is `12`: the reported fields are the rounded mean and the rounded
sum-in-hours, not the raw mean and raw sums. -/
theorem C6_counterexample :
    (get_summary_stats [sampleRecord] 1).avg_response_time = 0 ∧
    ([sampleRecord].map (fun r => r.response_time)).sum / (([sampleRecord] :
      List MetricsRecord).length : ℚ) = 1 / 1000 ∧
    (0 : ℚ) ≠ 1 / 1000 ∧
    (get_summary_stats [sampleRecord] 1).total_time_saved_hours = 1 / 5 ∧
    ([sampleRecord].map (fun r => r.time_saved)).sum = 12 ∧
    (1 : ℚ) / 5 ≠ 12 := by
  have hts : sampleRecord.time_saved = 12 := by
    simp [sampleRecord, log_request, calculate_time_saved,
      MANUAL_SURGERY_PREP_TIME, MANUAL_SAFETY_CHECK_TIME, MANUAL_DISCHARGE_PLAN_TIME]
  have hrt : sampleRecord.response_time = 1 / 1000 := by
    simp [sampleRecord, log_request]
  refine ⟨?_, ?_, by norm_num, ?_, ?_, by norm_num⟩
  · simp only [get_summary_stats, List.map, hrt]
    norm_num [round2, pythonRound]
  · simp [hrt]
  · simp only [get_summary_stats, List.map, hts]
    norm_num [round2, pythonRound]
  · simp [hts]

/-- Claim C6 (amended): an empty ledger yields the all-zero summary without
any division; a nonempty ledger of N records yields `total_requests = N`,
`avg_response_time` equal to the arithmetic mean of the wall-clock seconds
rounded to two decimals, `total_time_saved_hours` equal to the summed
minutes divided by 60 rounded to two decimals, and `total_cost_saved`
equal to the summed cost rounded to two decimals. -/
theorem C6_summary_stats (requests : List MetricsRecord) (uptime u0 : ℚ)
    (h : requests ≠ []) :
    get_summary_stats [] u0 =
      { total_requests := 0
        avg_response_time := 0
        total_time_saved_hours := 0
        total_cost_saved := 0
        daily_cost_saved := none
        annual_projection := none
        uptime_hours := 0 } ∧
    (get_summary_stats requests uptime).total_requests = requests.length ∧
    (get_summary_stats requests uptime).avg_response_time =
      round2 ((requests.map (fun r => r.response_time)).sum / (requests.length : ℚ)) ∧
    (get_summary_stats requests uptime).total_time_saved_hours =
      round2 ((requests.map (fun r => r.time_saved)).sum / 60) ∧
    (get_summary_stats requests uptime).total_cost_saved =
      round2 ((requests.map (fun r => r.cost_saved)).sum) := by
  refine ⟨rfl, ?_, ?_, ?_, ?_⟩ <;> simp [get_summary_stats, h]

/-- Witness for C6 (amended) on the concrete one-record ledger. -/
theorem C6_summary_stats_witness :
    get_summary_stats [] 1 =
      { total_requests := 0
        avg_response_time := 0
        total_time_saved_hours := 0
        total_cost_saved := 0
        daily_cost_saved := none
        annual_projection := none
        uptime_hours := 0 } ∧
    (get_summary_stats [sampleRecord] 1).total_requests =
      ([sampleRecord] : List MetricsRecord).length ∧
    (get_summary_stats [sampleRecord] 1).avg_response_time =
      round2 (([sampleRecord].map (fun r => r.response_time)).sum /
        (([sampleRecord] : List MetricsRecord).length : ℚ)) ∧
    (get_summary_stats [sampleRecord] 1).total_time_saved_hours =
      round2 (([sampleRecord].map (fun r => r.time_saved)).sum / 60) ∧
    (get_summary_stats [sampleRecord] 1).total_cost_saved =
      round2 (([sampleRecord].map (fun r => r.cost_saved)).sum) :=
  C6_summary_stats [sampleRecord] 1 1 (List.cons_ne_nil _ _)

set_option maxRecDepth 100000 in
/-- Counterexample to C7 as stated: the supply responder's user message for
the standard required-items list does not contain the demo request text
(the request string is never passed into `check_supplies`' prompt, which
interpolates only the required items and the inventory snapshot). -/
theorem C7_counterexample :
    strContains
      (((supply_messages ["blood_o_positive", "anesthesia_propofol", "sterile_instruments"]
          supplyInventory).getD 1 { role := "", content := "" }).content)
      "Emergency C-section needed in OR-3. Verify all supplies and patient safety protocols."
      = false := by
  decide

/-- Claim C7 (amended): every responder builds a two-message system+user
prompt; the clinical user message interpolates the patient-record fields
and the request text, and the discharge user message interpolates the
subject id and the request text; the supply user message interpolates the
required-items list and the inventory snapshot but not the request text. -/
theorem C7_responder_prompts (patient_id treatment condition : String)
    (items : List String) (p : PatientRecord)
    (hp : lookupPatient clinicalPatients patient_id = some p) :
    (clinical_messages clinicalPatients patient_id treatment).map Message.role =
      ["system", "user"] ∧
    (∃ l r, ((clinical_messages clinicalPatients patient_id treatment).getD 1
        { role := "", content := "" }).content = l ++ p.name ++ r) ∧
    (∃ l, ((clinical_messages clinicalPatients patient_id treatment).getD 1
        { role := "", content := "" }).content = l ++ treatment) ∧
    (discharge_messages patient_id condition).map Message.role = ["system", "user"] ∧
    (∃ l r, ((discharge_messages patient_id condition).getD 1
        { role := "", content := "" }).content = l ++ patient_id ++ r) ∧
    (∃ l r, ((discharge_messages patient_id condition).getD 1
        { role := "", content := "" }).content = l ++ condition ++ r) ∧
    (supply_messages items supplyInventory).map Message.role = ["system", "user"] ∧
    (∃ l r, ((supply_messages items supplyInventory).getD 1
        { role := "", content := "" }).content =
      l ++ String.intercalate ", " items ++ r) ∧
    (∃ l, ((supply_messages items supplyInventory).getD 1
        { role := "", content := "" }).content = l ++ format_inventory supplyInventory) := by
  refine ⟨rfl, ?_, ?_, rfl, ?_, ?_, rfl, ?_, ?_⟩
  · refine ⟨"Patient: ", ?_, ?_⟩
    · exact "\nAge: " ++ toString p.age ++ "\nAllergies: " ++
        String.intercalate ", " p.allergies ++ "\nCurrent medications: " ++
        String.intercalate ", " p.current_medications ++ "\nConditions: " ++
        String.intercalate ", " p.conditions ++ "\n\nProposed treatment: " ++ treatment
    · simp [clinical_messages, clinicalUserContent, hp, String.append_assoc]
  · refine ⟨"Patient: " ++ p.name ++ "\nAge: " ++ toString p.age ++ "\nAllergies: " ++
      String.intercalate ", " p.allergies ++ "\nCurrent medications: " ++
      String.intercalate ", " p.current_medications ++ "\nConditions: " ++
      String.intercalate ", " p.conditions ++ "\n\nProposed treatment: ", ?_⟩
    simp [clinical_messages, clinicalUserContent, hp, String.append_assoc]
  · exact ⟨"Patient: ", "\nCondition: " ++ condition ++ "\nCreate discharge plan.",
      by simp [discharge_messages, dischargeUserContent, String.append_assoc]⟩
  · exact ⟨"Patient: " ++ patient_id ++ "\nCondition: ", "\nCreate discharge plan.",
      by simp [discharge_messages, dischargeUserContent, String.append_assoc]⟩
  · exact ⟨"Required items: ",
      "\n                \nCurrent inventory:\n" ++ format_inventory supplyInventory,
      by simp [supply_messages, supplyUserContent, String.append_assoc]⟩
  · exact ⟨"Required items: " ++ String.intercalate ", " items ++
      "\n                \nCurrent inventory:\n",
      by simp [supply_messages, supplyUserContent, String.append_assoc]⟩

/-- Witness for C7 (amended) at the known patient id and concrete strings. -/
theorem C7_responder_prompts_witness :
    (clinical_messages clinicalPatients "patient_123" "treat").map Message.role =
      ["system", "user"] ∧
    (∃ l r, ((clinical_messages clinicalPatients "patient_123" "treat").getD 1
        { role := "", content := "" }).content =
      l ++ (⟨"Jane Doe", 32, [], [], ["pregnancy"]⟩ : PatientRecord).name ++ r) ∧
    (∃ l, ((clinical_messages clinicalPatients "patient_123" "treat").getD 1
        { role := "", content := "" }).content = l ++ "treat") ∧
    (discharge_messages "patient_123" "go home").map Message.role = ["system", "user"] ∧
    (∃ l r, ((discharge_messages "patient_123" "go home").getD 1
        { role := "", content := "" }).content = l ++ "patient_123" ++ r) ∧
    (∃ l r, ((discharge_messages "patient_123" "go home").getD 1
        { role := "", content := "" }).content = l ++ "go home" ++ r) ∧
    (supply_messages ["iv_fluids"] supplyInventory).map Message.role = ["system", "user"] ∧
    (∃ l r, ((supply_messages ["iv_fluids"] supplyInventory).getD 1
        { role := "", content := "" }).content =
      l ++ String.intercalate ", " ["iv_fluids"] ++ r) ∧
    (∃ l, ((supply_messages ["iv_fluids"] supplyInventory).getD 1
        { role := "", content := "" }).content = l ++ format_inventory supplyInventory) :=
  C7_responder_prompts "patient_123" "treat" "go home" ["iv_fluids"]
    ⟨"Jane Doe", 32, [], [], ["pregnancy"]⟩ rfl

/-- Claim C8: a coordination call that passes classification appends exactly
one record to the metrics ledger — the old ledger is a strict prefix of the
new one, so no existing record is edited or removed — and the ledger grows
by exactly one entry.  (Summary and recent-request queries are pure reads:
`get_summary_stats` and `get_recent_requests` take the ledger and return
derived values without producing a new ledger.) -/
theorem C8_ledger_append_only (requests : List MetricsRecord)
    (request patient_id reply timestamp : String)
    (orchClient supplyClient clinicalClient dischargeClient : Service)
    (response_time uptime : ℚ)
    (h : orchClient "sonar-pro" (orchestrator_messages request) 500 = Except.ok reply) :
    (∃ rec, (process_request requests request patient_id orchClient supplyClient
        clinicalClient dischargeClient timestamp response_time uptime).2 =
      requests ++ [rec]) ∧
    requests <+: (process_request requests request patient_id orchClient supplyClient
        clinicalClient dischargeClient timestamp response_time uptime).2 ∧
    (process_request requests request patient_id orchClient supplyClient
        clinicalClient dischargeClient timestamp response_time uptime).2.length =
      requests.length + 1 := by
  simp only [process_request, coordinate, analyze_request, h, log_request]
  refine ⟨⟨_, rfl⟩, ?_, ?_⟩
  · exact List.prefix_append _ _
  · simp

/-- Witness for C8 at a concrete stubbed run. -/
theorem C8_ledger_append_only_witness :
    (∃ rec, (process_request [] "check discharge" "patient_302"
        (fun _ _ _ => Except.ok "discharge") (fun _ _ _ => Except.ok "ok")
        (fun _ _ _ => Except.ok "ok") (fun _ _ _ => Except.ok "plan") "t0" 1 1).2 =
      [] ++ [rec]) ∧
    ([] : List MetricsRecord) <+: (process_request [] "check discharge" "patient_302"
        (fun _ _ _ => Except.ok "discharge") (fun _ _ _ => Except.ok "ok")
        (fun _ _ _ => Except.ok "ok") (fun _ _ _ => Except.ok "plan") "t0" 1 1).2 ∧
    (process_request [] "check discharge" "patient_302"
        (fun _ _ _ => Except.ok "discharge") (fun _ _ _ => Except.ok "ok")
        (fun _ _ _ => Except.ok "ok") (fun _ _ _ => Except.ok "plan") "t0" 1 1).2.length =
      ([] : List MetricsRecord).length + 1 :=
  C8_ledger_append_only [] "check discharge" "patient_302" "discharge" "t0"
    (fun _ _ _ => Except.ok "discharge") (fun _ _ _ => Except.ok "ok")
    (fun _ _ _ => Except.ok "ok") (fun _ _ _ => Except.ok "plan") 1 1 rfl

/-- Claim C9: against a deterministic service stub returning a fixed string,
invoking a responder twice with identical inputs — threading the agent
state through the first call — yields identical `Success` results and
leaves the agent state unchanged: the result is a pure function of the
inputs and the stubbed reply. -/
theorem C9_responder_idempotence (patients : List (String × PatientRecord))
    (inventory : List (String × Nat)) (patient_id treatment condition : String)
    (items : List String) (reply : String) (client : Service)
    (h : ∀ m msgs n, client m msgs n = Except.ok reply) :
    (check_safety patients patient_id treatment client).1 =
      (check_safety (check_safety patients patient_id treatment client).2
        patient_id treatment client).1 ∧
    (check_safety patients patient_id treatment client).1 =
      ClinicalResult.analyzed patient_id treatment reply ∧
    (check_safety patients patient_id treatment client).2 = patients ∧
    (check_supplies inventory items client).1 =
      (check_supplies (check_supplies inventory items client).2 items client).1 ∧
    (check_supplies inventory items client).1 =
      SupplyResult.analyzed items inventory reply ∧
    (check_supplies inventory items client).2 = inventory ∧
    create_discharge_plan patient_id condition client =
      DischargeResult.plan_created patient_id reply := by
  refine ⟨?_, ?_, ?_, ?_, ?_, ?_, ?_⟩ <;>
    simp [check_safety, check_supplies, create_discharge_plan, h]

/-- Witness for C9 at a concrete fixed-string stub. -/
theorem C9_responder_idempotence_witness :
    (check_safety clinicalPatients "patient_123" "treat"
        (fun _ _ _ => Except.ok "SAFETY_STATUS: SAFE")).1 =
      (check_safety (check_safety clinicalPatients "patient_123" "treat"
          (fun _ _ _ => Except.ok "SAFETY_STATUS: SAFE")).2 "patient_123" "treat"
        (fun _ _ _ => Except.ok "SAFETY_STATUS: SAFE")).1 ∧
    (check_safety clinicalPatients "patient_123" "treat"
        (fun _ _ _ => Except.ok "SAFETY_STATUS: SAFE")).1 =
      ClinicalResult.analyzed "patient_123" "treat" "SAFETY_STATUS: SAFE" ∧
    (check_safety clinicalPatients "patient_123" "treat"
        (fun _ _ _ => Except.ok "SAFETY_STATUS: SAFE")).2 = clinicalPatients ∧
    (check_supplies supplyInventory ["iv_fluids"]
        (fun _ _ _ => Except.ok "SAFETY_STATUS: SAFE")).1 =
      (check_supplies (check_supplies supplyInventory ["iv_fluids"]
          (fun _ _ _ => Except.ok "SAFETY_STATUS: SAFE")).2 ["iv_fluids"]
        (fun _ _ _ => Except.ok "SAFETY_STATUS: SAFE")).1 ∧
    (check_supplies supplyInventory ["iv_fluids"]
        (fun _ _ _ => Except.ok "SAFETY_STATUS: SAFE")).1 =
      SupplyResult.analyzed ["iv_fluids"] supplyInventory "SAFETY_STATUS: SAFE" ∧
    (check_supplies supplyInventory ["iv_fluids"]
        (fun _ _ _ => Except.ok "SAFETY_STATUS: SAFE")).2 = supplyInventory ∧
    create_discharge_plan "patient_123" "go home"
        (fun _ _ _ => Except.ok "SAFETY_STATUS: SAFE") =
      DischargeResult.plan_created "patient_123" "SAFETY_STATUS: SAFE" :=
  C9_responder_idempotence clinicalPatients supplyInventory "patient_123" "treat"
    "go home" ["iv_fluids"] "SAFETY_STATUS: SAFE"
    (fun _ _ _ => Except.ok "SAFETY_STATUS: SAFE") (fun _ _ _ => rfl)
